import Mathlib

/-!
Shallow embedding of the pairing and signaling-relay core of the
webrtc-intercom server (src/server.js, lines 71-169).

The server keeps a module-level `Map` from a 4-digit token string to a
session record `{ host: socketId, guest: socketId | null }` and installs
per-connection handlers for the events `create-session`, `join-session`,
`offer`, `answer`, `ice-candidate`, `hangup`, `open-door` and
`disconnect`.  We model socket identifiers as natural numbers (they are
opaque and equality-comparable), tokens as strings, the `Map` as an
insertion-ordered association list, and each handler as a pure function
from the registry and the triggering connection to the new registry plus
the ordered list of outbound emissions.  `io.to(x).emit(...)` with a
possibly absent target is modelled as an emission addressed to an
`Option SocketId`.  Token generation (`generateToken`, line 76-78) is
random, so the generated token is passed to the create handler as an
explicit argument.
-/

namespace Intercom

/-- Opaque, equality-comparable connection identifier (`socket.id`). -/
abbrev SocketId := Nat

/-- Session token: a short numeric string such as "4821". -/
abbrev Token := String

/-- The session record stored in the `sessions` map
(`{ host: socket.id, guest: null }`, src/server.js line 86). -/
structure Session where
  host : SocketId
  guest : Option SocketId
  deriving Repr, DecidableEq

/-- The `sessions` map (src/server.js line 74), as an insertion-ordered
association list from tokens to session records. -/
abbrev Registry := List (Token × Session)

/-- `sessions.get(token)`: first (and, for a well-formed map, only)
binding of the token. -/
def Registry.get : Registry → Token → Option Session
  | [], _ => none
  | (t0, s0) :: rest, t => if t0 = t then some s0 else Registry.get rest t

/-- `sessions.set(token, s)`: replace the binding of `token` if present,
otherwise append a new binding at the end, as a JS `Map` does. -/
def Registry.set : Registry → Token → Session → Registry
  | [], t, s => [(t, s)]
  | (t0, s0) :: rest, t, s =>
      if t0 = t then (t, s) :: rest else (t0, s0) :: Registry.set rest t s

/-- The keys of the registry, in insertion order. -/
def Registry.keys (r : Registry) : List Token := r.map Prod.fst

/-- Outbound socket.io emissions of the server, one constructor per
`emit` event name appearing in src/server.js. -/
inductive ServerMsg where
  | sessionCreated (token : Token)
  | sessionJoined (role : String) (peerId : SocketId)
  | peerJoined (role : String) (peerId : SocketId)
  | errorMsg (text : String)
  | peerDisconnected
  | offerMsg (sdp : String) (caller : SocketId)
  | answerMsg (sdp : String) (responder : SocketId)
  | iceCandidateMsg (candidate : String) (sender : SocketId)
  | hangupMsg (sender : SocketId)
  | openDoorMsg (sender : SocketId)
  deriving Repr, DecidableEq

/-- The ordered list of emissions a handler performs.  The first
component is the destination: `some c` for `io.to(c)` / `socket.emit`
on connection `c`, `none` for `io.to(undefined)` when a relay payload
carried no target. -/
abbrev Outbound := List (Option SocketId × ServerMsg)

/-- The `create-session` handler (src/server.js lines 84-89): store a
fresh session under the generated token and reply `session-created`
to the creator. -/
def handleCreateSession (r : Registry) (conn : SocketId) (token : Token) :
    Registry × Outbound :=
  (r.set token ⟨conn, none⟩, [(some conn, ServerMsg.sessionCreated token)])

/-- The `join-session` handler (src/server.js lines 92-113): on a known
token, evict any present guest with an error message, overwrite the
guest slot with the joiner, reply `session-joined` to the joiner and
`peer-joined` to the host; on an unknown token, reply `error` "Invalid
Token" and change nothing. -/
def handleJoinSession (r : Registry) (conn : SocketId) (token : Token) :
    Registry × Outbound :=
  match r.get token with
  | some session =>
      let evict : Outbound :=
        match session.guest with
        | some g =>
            [(some g, ServerMsg.errorMsg
                "Another device connected. You have been disconnected.")]
        | none => []
      (r.set token { session with guest := some conn },
       evict ++
         [(some conn, ServerMsg.sessionJoined "guest" session.host),
          (some session.host, ServerMsg.peerJoined "host" conn)])
  | none => (r, [(some conn, ServerMsg.errorMsg "Invalid Token")])

/-- The `offer` handler (src/server.js lines 116-122): forward to
`payload.target` unconditionally, annotated with the sender as
`caller`.  The registry is never consulted or changed. -/
def handleOffer (conn : SocketId) (target : Option SocketId) (sdp : String) :
    Outbound :=
  [(target, ServerMsg.offerMsg sdp conn)]

/-- The `answer` handler (src/server.js lines 124-129): forward to
`payload.target` unconditionally, annotated with the sender as
`responder`. -/
def handleAnswer (conn : SocketId) (target : Option SocketId) (sdp : String) :
    Outbound :=
  [(target, ServerMsg.answerMsg sdp conn)]

/-- The `ice-candidate` handler (src/server.js lines 131-136): forward
to `payload.target` unconditionally, annotated with the sender as
`sender`. -/
def handleIceCandidate (conn : SocketId) (target : Option SocketId)
    (candidate : String) : Outbound :=
  [(target, ServerMsg.iceCandidateMsg candidate conn)]

/-- The `hangup` handler (src/server.js lines 138-142): forward only
when `payload.target` is truthy. -/
def handleHangup (conn : SocketId) (target : Option SocketId) : Outbound :=
  match target with
  | some t => [(some t, ServerMsg.hangupMsg conn)]
  | none => []

/-- The `open-door` handler (src/server.js lines 144-148): forward only
when `payload.target` is truthy. -/
def handleOpenDoor (conn : SocketId) (target : Option SocketId) : Outbound :=
  match target with
  | some t => [(some t, ServerMsg.openDoorMsg conn)]
  | none => []

/-- The `disconnect` handler (src/server.js lines 151-169): one sweep
over all sessions; a session hosted by the leaver is destroyed (its
guest, if any, is told "Host disconnected" and `peer-disconnected`),
a session where the leaver is the guest has its guest slot cleared and
its host told `peer-disconnected`, and other sessions are untouched. -/
def handleDisconnect (conn : SocketId) : Registry → Registry × Outbound
  | [] => ([], [])
  | (token, session) :: rest =>
      let tail := handleDisconnect conn rest
      if session.host = conn then
        (tail.1,
         (match session.guest with
          | some g =>
              [(some g, ServerMsg.errorMsg "Host disconnected"),
               (some g, ServerMsg.peerDisconnected)]
          | none => []) ++ tail.2)
      else if session.guest = some conn then
        ((token, { session with guest := none }) :: tail.1,
         (some session.host, ServerMsg.peerDisconnected) :: tail.2)
      else
        ((token, session) :: tail.1, tail.2)

/-- The inbound events the coordinator dispatches on, one constructor
per `socket.on` registration in src/server.js. -/
inductive InEvent where
  | createSession
  | joinSession (token : Token)
  | offerEv (target : Option SocketId) (sdp : String)
  | answerEv (target : Option SocketId) (sdp : String)
  | iceCandidateEv (target : Option SocketId) (candidate : String)
  | hangupEv (target : Option SocketId)
  | openDoorEv (target : Option SocketId)
  | disconnect
  deriving Repr, DecidableEq

/-- Dispatch of one inbound event on connection `conn` against registry
`r`; `fresh` is the token produced by `generateToken` and is only
consulted by `create-session`. -/
def handleEvent (r : Registry) (conn : SocketId) (fresh : Token) :
    InEvent → Registry × Outbound
  | InEvent.createSession => handleCreateSession r conn fresh
  | InEvent.joinSession token => handleJoinSession r conn token
  | InEvent.offerEv target sdp => (r, handleOffer conn target sdp)
  | InEvent.answerEv target sdp => (r, handleAnswer conn target sdp)
  | InEvent.iceCandidateEv target candidate =>
      (r, handleIceCandidate conn target candidate)
  | InEvent.hangupEv target => (r, handleHangup conn target)
  | InEvent.openDoorEv target => (r, handleOpenDoor conn target)
  | InEvent.disconnect => handleDisconnect conn r

/- ## Basic registry lemmas -/

theorem Registry.get_set_self (r : Registry) (t : Token) (s : Session) :
    (r.set t s).get t = some s := by
  induction r with
  | nil => simp [Registry.set, Registry.get]
  | cons hd rest ih =>
      obtain ⟨t0, s0⟩ := hd
      by_cases h : t0 = t
      · simp [Registry.set, Registry.get, h]
      · simp [Registry.set, Registry.get, h, ih]

theorem Registry.get_set_ne (r : Registry) (t t' : Token) (s : Session)
    (h : t' ≠ t) : (r.set t s).get t' = r.get t' := by
  have h2 : ¬ t = t' := fun hh => h hh.symm
  induction r with
  | nil => simp [Registry.set, Registry.get, h2]
  | cons hd rest ih =>
      obtain ⟨t0, s0⟩ := hd
      by_cases h0 : t0 = t
      · subst h0
        simp [Registry.set, Registry.get, h2]
      · simp [Registry.set, Registry.get, h0, ih]

theorem Registry.get_eq_none_of_not_mem (r : Registry) (t : Token)
    (h : t ∉ r.keys) : r.get t = none := by
  induction r with
  | nil => rfl
  | cons hd rest ih =>
      obtain ⟨t0, s0⟩ := hd
      simp only [Registry.keys, List.map_cons, List.mem_cons] at h
      push_neg at h
      have h1 : ¬ t0 = t := fun hh => h.1 hh.symm
      simp [Registry.get, h1, ih (by
        intro hm
        exact h.2 (by simpa [Registry.keys] using hm))]

/- ## Lemmas about the disconnect sweep -/

theorem handleDisconnect_get_none (conn : SocketId) (r : Registry) (t : Token)
    (h : r.get t = none) : (handleDisconnect conn r).1.get t = none := by
  induction r with
  | nil => rfl
  | cons hd rest ih =>
      obtain ⟨t0, s0⟩ := hd
      simp only [Registry.get] at h
      by_cases h0 : t0 = t
      · simp [h0] at h
      · simp only [h0, if_false] at h
        by_cases hh : s0.host = conn
        · simp [handleDisconnect, hh, ih h]
        · by_cases hg : s0.guest = some conn
          · simp [handleDisconnect, hh, hg, Registry.get, h0, ih h]
          · simp [handleDisconnect, hh, hg, Registry.get, h0, ih h]

theorem handleDisconnect_get_host (conn : SocketId) (r : Registry) (t : Token)
    (s : Session) (hnd : r.keys.Nodup) (hget : r.get t = some s)
    (hhost : s.host = conn) : (handleDisconnect conn r).1.get t = none := by
  induction r with
  | nil => simp [Registry.get] at hget
  | cons hd rest ih =>
      obtain ⟨t0, s0⟩ := hd
      simp only [Registry.keys, List.map_cons, List.nodup_cons] at hnd
      simp only [Registry.get] at hget
      by_cases h0 : t0 = t
      · subst h0
        rw [if_pos rfl] at hget
        injection hget with hget
        subst hget
        have hrest : Registry.get rest t0 = none :=
          Registry.get_eq_none_of_not_mem rest t0 (by
            simpa [Registry.keys] using hnd.1)
        simp [handleDisconnect, hhost, handleDisconnect_get_none conn rest t0 hrest]
      · simp only [h0, if_false] at hget
        have ihr := ih (by simpa [Registry.keys] using hnd.2) hget
        by_cases hh : s0.host = conn
        · simp [handleDisconnect, hh, ihr]
        · by_cases hg : s0.guest = some conn
          · simp [handleDisconnect, hh, hg, Registry.get, h0, ihr]
          · simp [handleDisconnect, hh, hg, Registry.get, h0, ihr]

theorem handleDisconnect_get_guest (conn : SocketId) (r : Registry) (t : Token)
    (s : Session) (hnd : r.keys.Nodup) (hget : r.get t = some s)
    (hhost : s.host ≠ conn) (hguest : s.guest = some conn) :
    (handleDisconnect conn r).1.get t = some ⟨s.host, none⟩ := by
  induction r with
  | nil => simp [Registry.get] at hget
  | cons hd rest ih =>
      obtain ⟨t0, s0⟩ := hd
      simp only [Registry.keys, List.map_cons, List.nodup_cons] at hnd
      simp only [Registry.get] at hget
      by_cases h0 : t0 = t
      · subst h0
        rw [if_pos rfl] at hget
        injection hget with hget
        subst hget
        simp [handleDisconnect, hhost, hguest, Registry.get]
      · simp only [h0, if_false] at hget
        have ihr := ih (by simpa [Registry.keys] using hnd.2) hget
        by_cases hh : s0.host = conn
        · simp [handleDisconnect, hh, ihr]
        · by_cases hg : s0.guest = some conn
          · simp [handleDisconnect, hh, hg, Registry.get, h0, ihr]
          · simp [handleDisconnect, hh, hg, Registry.get, h0, ihr]

theorem handleDisconnect_get_other (conn : SocketId) (r : Registry) (t : Token)
    (s : Session) (hnd : r.keys.Nodup) (hget : r.get t = some s)
    (hhost : s.host ≠ conn) (hguest : s.guest ≠ some conn) :
    (handleDisconnect conn r).1.get t = some s := by
  induction r with
  | nil => simp [Registry.get] at hget
  | cons hd rest ih =>
      obtain ⟨t0, s0⟩ := hd
      simp only [Registry.keys, List.map_cons, List.nodup_cons] at hnd
      simp only [Registry.get] at hget
      by_cases h0 : t0 = t
      · subst h0
        rw [if_pos rfl] at hget
        injection hget with hget
        subst hget
        simp [handleDisconnect, hhost, hguest, Registry.get]
      · simp only [h0, if_false] at hget
        have ihr := ih (by simpa [Registry.keys] using hnd.2) hget
        by_cases hh : s0.host = conn
        · simp [handleDisconnect, hh, ihr]
        · by_cases hg : s0.guest = some conn
          · simp [handleDisconnect, hh, hg, Registry.get, h0, ihr]
          · simp [handleDisconnect, hh, hg, Registry.get, h0, ihr]

theorem handleDisconnect_host_msgs (conn : SocketId) (r : Registry) (t : Token)
    (s : Session) (g : SocketId) (hget : r.get t = some s)
    (hhost : s.host = conn) (hguest : s.guest = some g) :
    (some g, ServerMsg.errorMsg "Host disconnected") ∈ (handleDisconnect conn r).2 ∧
    (some g, ServerMsg.peerDisconnected) ∈ (handleDisconnect conn r).2 := by
  induction r with
  | nil => simp [Registry.get] at hget
  | cons hd rest ih =>
      obtain ⟨t0, s0⟩ := hd
      simp only [Registry.get] at hget
      by_cases h0 : t0 = t
      · subst h0
        rw [if_pos rfl] at hget
        injection hget with hget
        subst hget
        simp [handleDisconnect, hhost, hguest]
      · simp only [h0, if_false] at hget
        have ihr := ih hget
        by_cases hh : s0.host = conn
        · constructor
          · exact by simp [handleDisconnect, hh, ihr.1]
          · exact by simp [handleDisconnect, hh, ihr.2]
        · by_cases hg : s0.guest = some conn
          · constructor
            · exact by simp [handleDisconnect, hh, hg, ihr.1]
            · exact by simp [handleDisconnect, hh, hg, ihr.2]
          · constructor
            · exact by simp [handleDisconnect, hh, hg, ihr.1]
            · exact by simp [handleDisconnect, hh, hg, ihr.2]

/- ## Claim theorems -/

/-- Claim C1: after handling create-session, the registry maps the newly
generated token to a session whose host is the creating connection and
whose guest is absent, and the creator receives exactly one
session-created reply carrying that token. -/
theorem createSession_registers (r : Registry) (conn : SocketId) (token : Token) :
    (handleCreateSession r conn token).1.get token = some ⟨conn, none⟩ ∧
    (handleCreateSession r conn token).2 =
      [(some conn, ServerMsg.sessionCreated token)] :=
  ⟨Registry.get_set_self r token ⟨conn, none⟩, rfl⟩

/-- Claim C2: joining a waiting session (guest absent) sets the guest to
the joiner and produces exactly two notifications, session-joined with
peerId the host sent to the joiner, then peer-joined with peerId the
joiner sent to the host. -/
theorem joinSession_waiting (r : Registry) (conn : SocketId) (token : Token)
    (s : Session) (hget : r.get token = some s) (hguest : s.guest = none) :
    (handleJoinSession r conn token).1.get token = some ⟨s.host, some conn⟩ ∧
    (handleJoinSession r conn token).2 =
      [(some conn, ServerMsg.sessionJoined "guest" s.host),
       (some s.host, ServerMsg.peerJoined "host" conn)] := by
  simp only [handleJoinSession, hget, hguest]
  exact ⟨Registry.get_set_self r token ⟨s.host, some conn⟩, rfl⟩

theorem joinSession_waiting_witness :
    (handleJoinSession [("1000", ⟨5, none⟩)] 7 "1000").1.get "1000" =
      some ⟨5, some 7⟩ ∧
    (handleJoinSession [("1000", ⟨5, none⟩)] 7 "1000").2 =
      [(some 7, ServerMsg.sessionJoined "guest" 5),
       (some 5, ServerMsg.peerJoined "host" 7)] :=
  joinSession_waiting [("1000", ⟨5, none⟩)] 7 "1000" ⟨5, none⟩
    (by simp [Registry.get]) rfl

/-- Claim C3: joining an already-paired session first sends the eviction
notice to the old guest, then overwrites the guest slot with the new
joiner, replies session-joined to the joiner and peer-joined to the
host; afterwards exactly the joiner is the guest. -/
theorem joinSession_evicts (r : Registry) (conn : SocketId) (token : Token)
    (s : Session) (g : SocketId) (hget : r.get token = some s)
    (hguest : s.guest = some g) :
    (handleJoinSession r conn token).1.get token = some ⟨s.host, some conn⟩ ∧
    (handleJoinSession r conn token).2 =
      [(some g, ServerMsg.errorMsg
          "Another device connected. You have been disconnected."),
       (some conn, ServerMsg.sessionJoined "guest" s.host),
       (some s.host, ServerMsg.peerJoined "host" conn)] := by
  simp only [handleJoinSession, hget, hguest]
  exact ⟨Registry.get_set_self r token ⟨s.host, some conn⟩, rfl⟩

theorem joinSession_evicts_witness :
    (handleJoinSession [("1000", ⟨5, some 6⟩)] 7 "1000").1.get "1000" =
      some ⟨5, some 7⟩ ∧
    (handleJoinSession [("1000", ⟨5, some 6⟩)] 7 "1000").2 =
      [(some 6, ServerMsg.errorMsg
          "Another device connected. You have been disconnected."),
       (some 7, ServerMsg.sessionJoined "guest" 5),
       (some 5, ServerMsg.peerJoined "host" 7)] :=
  joinSession_evicts [("1000", ⟨5, some 6⟩)] 7 "1000" ⟨5, some 6⟩ 6
    (by simp [Registry.get]) rfl

/-- Claim C4: joining with a token not present in the registry sends the
"Invalid Token" error to the joiner only and leaves the registry
unchanged. -/
theorem joinSession_invalid_token (r : Registry) (conn : SocketId)
    (token : Token) (hget : r.get token = none) :
    (handleJoinSession r conn token).1 = r ∧
    (handleJoinSession r conn token).2 =
      [(some conn, ServerMsg.errorMsg "Invalid Token")] := by
  simp [handleJoinSession, hget]

theorem joinSession_invalid_token_witness :
    (handleJoinSession [("1000", ⟨5, none⟩)] 7 "2000").1 =
      [("1000", ⟨5, none⟩)] ∧
    (handleJoinSession [("1000", ⟨5, none⟩)] 7 "2000").2 =
      [(some 7, ServerMsg.errorMsg "Invalid Token")] :=
  joinSession_invalid_token [("1000", ⟨5, none⟩)] 7 "2000"
    (by simp [Registry.get])

/-- Claim C5: disconnecting the host of a session with token t removes
that session (a subsequent lookup of t is absent) and, whenever a guest
was present, that guest is sent the "Host disconnected" error and the
peer-disconnected notification. -/
theorem disconnect_host_destroys (r : Registry) (conn : SocketId) (t : Token)
    (s : Session) (hnd : r.keys.Nodup) (hget : r.get t = some s)
    (hhost : s.host = conn) :
    (handleDisconnect conn r).1.get t = none ∧
    ∀ g, s.guest = some g →
      (some g, ServerMsg.errorMsg "Host disconnected") ∈
        (handleDisconnect conn r).2 ∧
      (some g, ServerMsg.peerDisconnected) ∈ (handleDisconnect conn r).2 :=
  ⟨handleDisconnect_get_host conn r t s hnd hget hhost,
   fun g hg => handleDisconnect_host_msgs conn r t s g hget hhost hg⟩

theorem disconnect_host_destroys_witness :
    (handleDisconnect 4 [("1000", ⟨4, some 6⟩)]).1.get "1000" = none ∧
    ((some 6, ServerMsg.errorMsg "Host disconnected") ∈
        (handleDisconnect 4 [("1000", ⟨4, some 6⟩)]).2 ∧
     (some 6, ServerMsg.peerDisconnected) ∈
        (handleDisconnect 4 [("1000", ⟨4, some 6⟩)]).2) :=
  ⟨(disconnect_host_destroys [("1000", ⟨4, some 6⟩)] 4 "1000" ⟨4, some 6⟩
      (by simp [Registry.keys]) (by simp [Registry.get]) rfl).1,
   (disconnect_host_destroys [("1000", ⟨4, some 6⟩)] 4 "1000" ⟨4, some 6⟩
      (by simp [Registry.keys]) (by simp [Registry.get]) rfl).2 6 rfl⟩

/-- Claim C6: a connection that is host of token a and guest of token b
has, after its disconnect sweep, token a removed from the registry and
token b still present with its guest slot cleared. -/
theorem disconnect_dual_role (r : Registry) (conn : SocketId) (a b : Token)
    (sa sb : Session) (hnd : r.keys.Nodup)
    (hga : r.get a = some sa) (hah : sa.host = conn)
    (hgb : r.get b = some sb) (hbh : sb.host ≠ conn)
    (hbg : sb.guest = some conn) :
    (handleDisconnect conn r).1.get a = none ∧
    (handleDisconnect conn r).1.get b = some ⟨sb.host, none⟩ :=
  ⟨handleDisconnect_get_host conn r a sa hnd hga hah,
   handleDisconnect_get_guest conn r b sb hnd hgb hbh hbg⟩

theorem disconnect_dual_role_witness :
    (handleDisconnect 2 [("1000", ⟨2, some 9⟩), ("2000", ⟨7, some 2⟩)]).1.get
      "1000" = none ∧
    (handleDisconnect 2 [("1000", ⟨2, some 9⟩), ("2000", ⟨7, some 2⟩)]).1.get
      "2000" = some ⟨7, none⟩ :=
  disconnect_dual_role [("1000", ⟨2, some 9⟩), ("2000", ⟨7, some 2⟩)] 2
    "1000" "2000" ⟨2, some 9⟩ ⟨7, some 2⟩
    (by simp [Registry.keys]) (by simp [Registry.get]) rfl
    (by simp [Registry.get]) (by simp) rfl

/-- Claim C7: a relay whose payload has an absent target is a no-op for
hangup and open-door, while offer, answer and ice-candidate are
forwarded to whatever target was supplied (including the absent one);
every relay handler is total, so no error is ever raised. -/
theorem relay_missing_target (conn : SocketId) (target : Option SocketId)
    (sdp candidate : String) :
    handleHangup conn none = [] ∧
    handleOpenDoor conn none = [] ∧
    handleOffer conn target sdp = [(target, ServerMsg.offerMsg sdp conn)] ∧
    handleAnswer conn target sdp =
      [(target, ServerMsg.answerMsg sdp conn)] ∧
    handleIceCandidate conn target candidate =
      [(target, ServerMsg.iceCandidateMsg candidate conn)] :=
  ⟨rfl, rfl, rfl, rfl, rfl⟩

/-- Claim C8 counterexample: create-session with a colliding token does
silently overwrite the existing session's data: the stored record for
"1000" changes from host 1 with guest 2 to host 3 with no guest. -/
theorem createSession_collision_counterexample :
    Registry.get [("1000", ⟨1, some 2⟩)] "1000" = some ⟨1, some 2⟩ ∧
    (handleCreateSession [("1000", ⟨1, some 2⟩)] 3 "1000").1.get "1000" =
      some ⟨3, none⟩ ∧
    (⟨3, none⟩ : Session) ≠ ⟨1, some 2⟩ := by
  refine ⟨by simp [Registry.get], ?_, by simp⟩
  simp [handleCreateSession, Registry.set, Registry.get]

/-- Claim C8 amended: when create-session generates a token that
collides with a live session, the existing entry is silently overwritten
by the new session (host := conn, guest absent), so any distinct prior
record is no longer retrievable. -/
theorem createSession_collision_overwrites (r : Registry) (conn : SocketId)
    (token : Token) (s : Session) (hget : r.get token = some s) :
    (handleCreateSession r conn token).1.get token = some ⟨conn, none⟩ ∧
    (s ≠ ⟨conn, none⟩ →
      (handleCreateSession r conn token).1.get token ≠ some s) := by
  refine ⟨Registry.get_set_self r token ⟨conn, none⟩, ?_⟩
  intro hne hcontra
  rw [show (handleCreateSession r conn token).1 =
        r.set token ⟨conn, none⟩ from rfl,
      Registry.get_set_self r token ⟨conn, none⟩] at hcontra
  exact hne (Option.some.inj hcontra).symm

theorem createSession_collision_overwrites_witness :
    (handleCreateSession [("1000", ⟨1, some 2⟩)] 3 "1000").1.get "1000" =
      some ⟨3, none⟩ ∧
    ((⟨1, some 2⟩ : Session) ≠ ⟨3, none⟩ →
      (handleCreateSession [("1000", ⟨1, some 2⟩)] 3 "1000").1.get "1000" ≠
        some ⟨1, some 2⟩) :=
  createSession_collision_overwrites [("1000", ⟨1, some 2⟩)] 3 "1000"
    ⟨1, some 2⟩ (by simp [Registry.get])

/-- Claim C9: for any event other than create-session (join, any relay
kind, or disconnect), whenever a token is mapped to a session both
before and after the event, the session's host is unchanged; only the
guest slot can change while the session is alive. -/
theorem host_immutable (r : Registry) (conn : SocketId) (fresh : Token)
    (e : InEvent) (t : Token) (s s2 : Session)
    (hnd : r.keys.Nodup)
    (hne : e ≠ InEvent.createSession)
    (hget : r.get t = some s)
    (hget2 : (handleEvent r conn fresh e).1.get t = some s2) :
    s2.host = s.host := by
  cases e with
  | createSession => exact absurd rfl hne
  | joinSession token =>
      cases hmatch : r.get token with
      | none =>
          simp only [handleEvent, handleJoinSession, hmatch] at hget2
          rw [hget] at hget2
          rw [← Option.some.inj hget2]
      | some sess =>
          simp only [handleEvent, handleJoinSession, hmatch] at hget2
          by_cases htok : t = token
          · subst htok
            rw [Registry.get_set_self] at hget2
            rw [hmatch] at hget
            rw [← Option.some.inj hget2, ← Option.some.inj hget]
          · rw [Registry.get_set_ne r token t _ htok, hget] at hget2
            rw [← Option.some.inj hget2]
  | offerEv target sdp =>
      simp only [handleEvent] at hget2
      rw [hget] at hget2
      rw [← Option.some.inj hget2]
  | answerEv target sdp =>
      simp only [handleEvent] at hget2
      rw [hget] at hget2
      rw [← Option.some.inj hget2]
  | iceCandidateEv target candidate =>
      simp only [handleEvent] at hget2
      rw [hget] at hget2
      rw [← Option.some.inj hget2]
  | hangupEv target =>
      simp only [handleEvent] at hget2
      rw [hget] at hget2
      rw [← Option.some.inj hget2]
  | openDoorEv target =>
      simp only [handleEvent] at hget2
      rw [hget] at hget2
      rw [← Option.some.inj hget2]
  | disconnect =>
      simp only [handleEvent] at hget2
      by_cases hh : s.host = conn
      · rw [handleDisconnect_get_host conn r t s hnd hget hh] at hget2
        exact absurd hget2 (by simp)
      · by_cases hg : s.guest = some conn
        · rw [handleDisconnect_get_guest conn r t s hnd hget hh hg] at hget2
          rw [← Option.some.inj hget2]
        · rw [handleDisconnect_get_other conn r t s hnd hget hh hg] at hget2
          rw [← Option.some.inj hget2]

theorem host_immutable_witness :
    (⟨5, none⟩ : Session).host = (⟨5, some 3⟩ : Session).host :=
  host_immutable [("1000", ⟨5, some 3⟩)] 3 "9999" InEvent.disconnect "1000"
    ⟨5, some 3⟩ ⟨5, none⟩ (by simp [Registry.keys]) (by simp)
    (by simp [Registry.get])
    (by simp [handleEvent, handleDisconnect, Registry.get])

/-- Claim C10: nothing stops the host from joining its own session: when
token t maps to a session hosted by h, join-session from h itself
succeeds, sets guest := h, and sends both the session-joined reply
(peerId = h) and the peer-joined notification (peerId = h) to h. -/
theorem joinSession_host_self (r : Registry) (t : Token) (s : Session)
    (hget : r.get t = some s) :
    (handleJoinSession r s.host t).1.get t = some ⟨s.host, some s.host⟩ ∧
    (some s.host, ServerMsg.sessionJoined "guest" s.host) ∈
      (handleJoinSession r s.host t).2 ∧
    (some s.host, ServerMsg.peerJoined "host" s.host) ∈
      (handleJoinSession r s.host t).2 := by
  refine ⟨?_, ?_, ?_⟩
  · simp only [handleJoinSession, hget]
    exact Registry.get_set_self r t ⟨s.host, some s.host⟩
  · cases hg : s.guest <;> simp [handleJoinSession, hget, hg]
  · cases hg : s.guest <;> simp [handleJoinSession, hget, hg]

theorem joinSession_host_self_witness :
    (handleJoinSession [("1000", ⟨5, none⟩)] 5 "1000").1.get "1000" =
      some ⟨5, some 5⟩ ∧
    (some 5, ServerMsg.sessionJoined "guest" 5) ∈
      (handleJoinSession [("1000", ⟨5, none⟩)] 5 "1000").2 ∧
    (some 5, ServerMsg.peerJoined "host" 5) ∈
      (handleJoinSession [("1000", ⟨5, none⟩)] 5 "1000").2 :=
  joinSession_host_self [("1000", ⟨5, none⟩)] "1000" ⟨5, none⟩
    (by simp [Registry.get])

end Intercom
